import Mathlib

/-!
Shallow embedding of `imagery/__init__.py` (davenquinn/Imagery), a thin
object-oriented wrapper over a raster-geospatial library, together with
theorems settling the specification claims about it.

Numeric values are modelled as rationals (`ℚ`): the Python code performs
only field arithmetic (with `from __future__ import division`), so every
computation it does on floats is the rounding of the corresponding exact
rational computation, and the claims are stated up to floating-point
tolerance.
-/

namespace Imagery

/-- The six GDAL geotransform coefficients, in the index order the source
uses: `g[0] .. g[5]`.  The spec names them `a, b, c, d, e, f`. -/
structure GeoTransform where
  g0 : ℚ
  g1 : ℚ
  g2 : ℚ
  g3 : ℚ
  g4 : ℚ
  g5 : ℚ
deriving DecidableEq, Repr

/-- A geometry vertex as shapely's `transform` hands it to the callback:
an `(x, y)` pair with an optional `z` (the callback's `z=None` default). -/
abbrev Coord : Type := ℚ × ℚ × Option ℚ

/-- Python `int(q)`: truncation toward zero. -/
def truncToward0 (q : ℚ) : ℤ :=
  if 0 ≤ q then ⌊q⌋ else ⌈q⌉

/-- The inner `project_coord` of `RasterProxy.pixel_coordinates`
(src/imagery/__init__.py lines 36-45): `x = (x - g[0]) / g[1]`,
`y = (y - g[3]) / g[5]`, optionally snapped to integers, with `z`
passed through.  Note the source ignores `g[2]` and `g[4]`. -/
def pixelProjectCoord (g : GeoTransform) (snap : Bool) : Coord → Coord :=
  fun c =>
    let x := (c.1 - g.g0) / g.g1
    let y := (c.2.1 - g.g3) / g.g5
    if snap then ((truncToward0 x : ℚ), (truncToward0 y : ℚ), c.2.2)
    else (x, y, c.2.2)

/-- The inner `project_coord` of `RasterProxy.map_coordinates`
(src/imagery/__init__.py lines 55-62).  The source rebinds the local
`x` before computing `y`, so the `y` line reads the already
transformed `x`:
`x = g[0] + g[1]*x + g[2]*y` then `y = g[3] + g[4]*x + g[5]*y`. -/
def mapProjectCoord (g : GeoTransform) : Coord → Coord :=
  fun c =>
    let x := g.g0 + g.g1 * c.1 + g.g2 * c.2.1
    let y := g.g3 + g.g4 * x + g.g5 * c.2.1
    (x, y, c.2.2)

/-- Shapely geometry kinds relevant to the wrapper: zero-dimensional and
one-dimensional geometries have area 0; polygons have shoelace area. -/
inductive GeomKind where
  | point
  | line
  | polygon
deriving DecidableEq, Repr

/-- A geometry: a kind together with its vertex list. -/
structure Geom where
  kind : GeomKind
  vertices : List Coord
deriving DecidableEq, Repr

/-- Twice the signed shoelace sum of a closed vertex ring. -/
def shoelace2 : List (ℚ × ℚ) → ℚ
  | [] => 0
  | [_] => 0
  | (x1, y1) :: (x2, y2) :: rest =>
      (x1 * y2 - x2 * y1) + shoelace2 ((x2, y2) :: rest)

/-- Shapely's `geometry.area`: 0 for points and lines, the absolute
shoelace area for polygons. -/
def Geom.area (g : Geom) : ℚ :=
  match g.kind with
  | .polygon => |shoelace2 (g.vertices.map fun c => (c.1, c.2.1))| / 2
  | _ => 0

/-- `shapely.ops.transform`: applies the coordinate callback to every
vertex, preserving the geometry kind. -/
def shapelyTransform (f : Coord → Coord) (g : Geom) : Geom :=
  { kind := g.kind, vertices := g.vertices.map f }

/-- `RasterProxy.pixel_coordinates` (src/imagery/__init__.py lines 35-46):
applies `project_coord` to every vertex. -/
def pixel_coordinates (g : GeoTransform) (geometry : Geom) (snap : Bool) : Geom :=
  shapelyTransform (pixelProjectCoord g snap) geometry

/-- `RasterProxy.map_coordinates` (src/imagery/__init__.py lines 48-63):
applies `project_coord` to every vertex. -/
def map_coordinates (g : GeoTransform) (geometry : Geom) : Geom :=
  shapelyTransform (mapProjectCoord g) geometry

/-- Modelled from the spec: the closed-form affine map
`x' = a + b·x + c·y; y' = d + e·x + f·y` with `(a,b,c,d,e,f) =
(g[0],...,g[5])`, the map the spec says `map_coordinates` computes and
`pixel_coordinates` inverts.  This is the spec-side definition to be
compared with the source-side `mapProjectCoord` and `pixelProjectCoord`. -/
def specAffineMap (g : GeoTransform) (p : ℚ × ℚ) : ℚ × ℚ :=
  (g.g0 + g.g1 * p.1 + g.g2 * p.2, g.g3 + g.g4 * p.1 + g.g5 * p.2)

/-- Determinant of the linear part of the spec affine map; the map is
invertible iff this is nonzero. -/
def gtDet (g : GeoTransform) : ℚ :=
  g.g1 * g.g5 - g.g2 * g.g4

/-- The `(x, y)` pair `pixel_coordinates` (snap=False) produces for a
single 2-D map-coordinate vertex. -/
def pixelXY (g : GeoTransform) (p : ℚ × ℚ) : ℚ × ℚ :=
  ((pixelProjectCoord g false (p.1, p.2, none)).1,
   (pixelProjectCoord g false (p.1, p.2, none)).2.1)

/-- A pixel value as numpy holds it: either a number or NaN. -/
inductive Val where
  | num (q : ℚ)
  | nan
deriving DecidableEq, Repr

/-- A no-data value as it flows through `Band.get_array`: GDAL's
`GetNoDataValue` yields a number (or Python `None`, modelled by `Option`),
and callers may also pass the string `'nan'`, which the source
special-cases. -/
inductive NoData where
  | num (q : ℚ)
  | nanStr
deriving DecidableEq, Repr

/-- The array element type, as far as the masking assignment cares:
floating-point arrays accept NaN, integer arrays raise `ValueError` when
NaN is assigned into them. -/
inductive Dtype where
  | float
  | intType
deriving DecidableEq, Repr

/-- Python `==` between an array element and a numeric no-data value:
NaN compares unequal to everything. -/
def pyEqNum (v : Val) (q : ℚ) : Bool :=
  match v with
  | .num p => p == q
  | .nan => false

/-- Python `numpy.isnan` on one element. -/
def isNanV : Val → Bool
  | .nan => true
  | .num _ => false

/-- What `Band.get_array` returns: a plain numpy array, or (only on the
`'nan'` path) a numpy masked array with its mask. -/
inductive GetArrayResult where
  | plain (a : List Val)
  | masked (a : List Val) (mask : List Bool)
deriving DecidableEq, Repr

/-- The effective no-data value inside `get_array`: the `nodata` argument
if given, else the band's declared `self.nodata`
(`if nodata is None: nodata = self.nodata`). -/
def effectiveNodata (bandNodata arg : Option NoData) : Option NoData :=
  match arg with
  | none => bandNodata
  | some v => some v

/-- The masking assignment `arr[arr == nodata] = N.nan` on a
floating-point array. -/
def maskNodata (arr : List Val) (q : ℚ) : List Val :=
  arr.map fun v => if pyEqNum v q then .nan else v

/-- `Band.get_array` (src/imagery/__init__.py lines 74-85).  The band's
declared no-data value fills in when the argument is `None`; the string
`'nan'` produces `N.ma.array(arr, mask = N.isnan(arr))`; a numeric
no-data value is masked to NaN in place, except that on an integer array
the assignment raises `ValueError`, which the source catches, returning
the array unmodified; with no no-data value the array is returned as
read. -/
def get_array (dtype : Dtype) (arr : List Val) (bandNodata : Option NoData)
    (nodata : Option NoData) : GetArrayResult :=
  match effectiveNodata bandNodata nodata with
  | some .nanStr => .masked arr (arr.map isNanV)
  | some (.num q) =>
    match dtype with
    | .float => .plain (maskNodata arr q)
    | .intType => .plain arr
  | none => .plain arr

/-- Python exception classes the wrapper's control flow distinguishes.
`otherExc n` stands for any exception class other than the two named
ones (`n` an arbitrary tag). -/
inductive PyExc where
  | attributeError
  | nameError
  | otherExc (n : Nat)
deriving DecidableEq, Repr

/-- A GDAL raster band handle, as `GetRasterBand` returns it: the fields
the wrapper reads.  The raster contents are the band's array together
with its element type. -/
structure GdalBand where
  nodata : Option NoData
  dtype : Dtype
  arr : List Val
deriving DecidableEq, Repr

/-- A GDAL dataset handle: the fields and calls `Dataset.__init__`
reads.  `projResult` models the outcome of the projection-metadata
library calls (`GetProjection` / `osr` / `from_string`): either the
three derived spatial-reference values (`wkt`, `crs`, `gcs`, whose
string contents are irrelevant to the claims and modelled as atoms) or
the exception those calls raise. -/
structure GdalHandle where
  RasterYSize : Nat
  RasterXSize : Nat
  RasterCount : Nat
  geotransform : GeoTransform
  getRasterBand : Nat → GdalBand
  projResult : Except PyExc (Nat × Nat × Nat)

/-- The attribute state of a `Dataset` after construction.  `gdal` is
the wrapped library handle (`None` after `close`); `wkt`, `crs`, `gcs`
are unset (`none`) when the projection block failed. -/
structure Dataset where
  gdal : Option GdalHandle
  shape : Nat × Nat
  wkt : Option Nat
  crs : Option Nat
  gcs : Option Nat
  projected : Bool

/-- `Dataset.__init__` (src/imagery/__init__.py lines 120-135), taking
the handle `G.Open` produced: stores it, sets `shape` to the declared
`(RasterYSize, RasterXSize)`, and runs the projection block under
`try/except AttributeError`: on success `wkt`, `crs`, `gcs` are
populated and `projected` is `True`; on `AttributeError` the constructor
still completes with `projected = False`; any other exception
propagates out of the constructor. -/
def Dataset.init (h : GdalHandle) : Except PyExc Dataset :=
  match h.projResult with
  | .ok (w, c, gc) =>
      .ok ⟨some h, (h.RasterYSize, h.RasterXSize), some w, some c, some gc, true⟩
  | .error .attributeError =>
      .ok ⟨some h, (h.RasterYSize, h.RasterXSize), none, none, none, false⟩
  | .error e => .error e

/-- The attribute state of a `Band` after construction. -/
structure Band where
  index : Nat
  gdalBand : GdalBand
  shape : Nat × Nat
  nodata : Option NoData

/-- `Band.__init__` (src/imagery/__init__.py lines 67-72): looks up
`GetRasterBand(index+1)` on the dataset's handle (an `AttributeError`
when the dataset has been closed, `None` having no such method), copies
the dataset's `shape`, and reads the band's declared no-data value. -/
def Band.init (d : Dataset) (index : Nat) : Except PyExc Band :=
  match d.gdal with
  | none => .error .attributeError
  | some h =>
      .ok ⟨index, h.getRasterBand (index + 1), d.shape,
        (h.getRasterBand (index + 1)).nodata⟩

/-- `Dataset.get_band` (src/imagery/__init__.py lines 137-138). -/
def Dataset.get_band (d : Dataset) (index : Nat) : Except PyExc Band :=
  Band.init d index

/-- `Dataset.close` (src/imagery/__init__.py lines 170-171):
`self.__gdal__ = None`; nothing else is touched. -/
def Dataset.close (d : Dataset) : Dataset :=
  { d with gdal := none }

/-- `open.__exit__` (src/imagery/__init__.py lines 25-26): receives the
exception information (`None, None, None` on a clean exit) and
unconditionally calls `self.image.close()`; Python's `with` statement
runs `__exit__` whether or not the body raised. -/
def openExit (image : Dataset) (exc : Option PyExc) : Dataset :=
  Dataset.close image

/-- Python identifiers occurring in `Band.get_pixel`. -/
inductive PyName where
  | selfName
  | xName
  | yName
  | pxName
  | pyName
deriving DecidableEq, Repr

/-- The local names bound in `Band.get_pixel`'s body: its parameters
`self`, `x`, `y`.  No assignment in the body binds anything else. -/
def getPixelScope : List PyName := [.selfName, .xName, .yName]

/-- Python name resolution: reading a name bound nowhere in scope raises
`NameError`. -/
def lookupName (scope : List PyName) (n : PyName) : Except PyExc Unit :=
  if scope.contains n then .ok () else .error .nameError

/-- `Band.get_pixel` (src/imagery/__init__.py lines 87-90): the body
evaluates `self.__gdal__.ReadRaster(px, py, 1, 1, ...)`, reading the
names `px` and `py`; argument evaluation precedes the call, so the name
lookups happen before any raster access.  The integer after the lookups
(never reached) stands in for the `struct.unpack` of the read buffer. -/
def Band.get_pixel (b : Band) (x y : ℚ) : Except PyExc Int :=
  lookupName getPixelScope .pxName >>= fun _ =>
    lookupName getPixelScope .pyName >>= fun _ =>
      .ok 0

/-- An extraction strategy, as `strategies.nearest` is used by
`extract_pixels`: the strategies module is external to the wrapper, so a
strategy is any function from the band's array (as `get_array()` returns
it) and a pixel geometry to a geometry of extracted pixels. -/
def Strategy : Type := GetArrayResult → Geom → Geom

/-- The band state the extraction path reads: the dataset's
geotransform, and the band's element type, raster array and declared
no-data value. -/
structure BandState where
  geomatrix : GeoTransform
  dtype : Dtype
  arr : List Val
  nodata : Option NoData

/-- `self.get_array()` as `extract_pixels` calls it: no argument, so the
band's declared no-data value applies. -/
def BandState.getArrayDefault (b : BandState) : GetArrayResult :=
  get_array b.dtype b.arr b.nodata none

/-- `Band.extract_pixels` (src/imagery/__init__.py lines 105-112):
zero-area pixel geometries are evaluated with the strategy on the band's
array; others go to `extract_area` (the `.area` module is external and
kept abstract as `ea`). -/
def extract_pixels (ea : Geom → Geom) (b : BandState) (pixel_geometry : Geom)
    (strategy : Strategy) : Geom :=
  if pixel_geometry.area = 0 then strategy b.getArrayDefault pixel_geometry
  else ea pixel_geometry

/-- `Band.extract` (src/imagery/__init__.py lines 92-97): projects the
geometry to pixel coordinates and calls `self.extract_pixels(...)`
without forwarding its own `strategy` parameter, so `extract_pixels`
runs with its declared default `strategies.nearest` (`nearest` is a
parameter of the model, the strategies module being external). -/
def extract (nearest : Strategy) (ea : Geom → Geom) (b : BandState)
    (geometry : Geom) (strategy : Strategy) : Geom :=
  map_coordinates b.geomatrix
    (extract_pixels ea b (pixel_coordinates b.geomatrix geometry false) nearest)

end Imagery

namespace Imagery

/-- C1: the pixel→map→pixel round trip fails for general geotransform
coefficients: with `g = (0,1,1,0,0,1)` and the pixel vertex `(0,1)`,
`map_coordinates` sends it to `(1,1)` and `pixel_coordinates` sends that
back to `(1,1) ≠ (0,1)` — an error of a whole pixel, beyond any
floating-point tolerance. -/
theorem C1_counterexample :
    pixel_coordinates ⟨0, 1, 1, 0, 0, 1⟩
        (map_coordinates ⟨0, 1, 1, 0, 0, 1⟩ ⟨GeomKind.point, [(0, 1, none)]⟩) false
      ≠ ⟨GeomKind.point, [(0, 1, none)]⟩ := by
  norm_num [pixel_coordinates, map_coordinates, shapelyTransform, pixelProjectCoord,
    mapProjectCoord, Geom.mk.injEq, Prod.ext_iff]

/-- C1 (amended): for geotransforms with zero rotation/shear terms
(`g[2] = g[4] = 0`) and nonzero pixel sizes (`g[1] ≠ 0`, `g[5] ≠ 0`),
converting any geometry from pixel to map coordinates with
`map_coordinates` and back with `pixel_coordinates` (snap=False) returns
the original geometry exactly. -/
theorem C1_roundtrip (g : GeoTransform) (h2 : g.g2 = 0) (h4 : g.g4 = 0)
    (h1 : g.g1 ≠ 0) (h5 : g.g5 ≠ 0) (geometry : Geom) :
    pixel_coordinates g (map_coordinates g geometry) false = geometry := by
  cases geometry with
  | mk kind vertices =>
    simp only [pixel_coordinates, map_coordinates, shapelyTransform, List.map_map,
      Geom.mk.injEq, true_and]
    have hpt : ∀ c : Coord, pixelProjectCoord g false (mapProjectCoord g c) = c := by
      intro c
      obtain ⟨x, y, z⟩ := c
      simp only [mapProjectCoord, pixelProjectCoord, h2, h4, if_false, Bool.false_eq_true]
      refine Prod.ext ?_ (Prod.ext ?_ rfl)
      · show (g.g0 + g.g1 * x + 0 * y - g.g0) / g.g1 = x
        field_simp
      · show (g.g3 + 0 * (g.g0 + g.g1 * x + 0 * y) + g.g5 * y - g.g3) / g.g5 = y
        field_simp
    calc vertices.map (fun c => pixelProjectCoord g false (mapProjectCoord g c))
        = vertices.map id := List.map_congr_left fun c _ => hpt c
      _ = vertices := List.map_id vertices

/-- Witness for C1_roundtrip at a concrete axis-aligned geotransform and
geometry. -/
theorem C1_roundtrip_witness :
    (⟨10, 2, 0, 20, 0, -3⟩ : GeoTransform).g2 = 0 ∧
    (⟨10, 2, 0, 20, 0, -3⟩ : GeoTransform).g4 = 0 ∧
    (⟨10, 2, 0, 20, 0, -3⟩ : GeoTransform).g1 ≠ 0 ∧
    (⟨10, 2, 0, 20, 0, -3⟩ : GeoTransform).g5 ≠ 0 ∧
    pixel_coordinates ⟨10, 2, 0, 20, 0, -3⟩
        (map_coordinates ⟨10, 2, 0, 20, 0, -3⟩
          ⟨GeomKind.line, [(1, 2, none), (3, 4, some 5)]⟩) false
      = ⟨GeomKind.line, [(1, 2, none), (3, 4, some 5)]⟩ :=
  ⟨rfl, rfl, by norm_num, by norm_num,
    C1_roundtrip ⟨10, 2, 0, 20, 0, -3⟩ rfl rfl (by norm_num) (by norm_num)
      ⟨GeomKind.line, [(1, 2, none), (3, 4, some 5)]⟩⟩

/-- C2 (code bug): at geotransform `(1,1,0,0,1,0)` and vertex `(0,0)`
the source's `map_coordinates` produces `(1,1)` — its `y` line reads the
already transformed `x` — while the spec's affine map
`x' = a + b·x + c·y; y' = d + e·x + f·y` gives `(1,0)`. -/
theorem C2_divergence :
    mapProjectCoord ⟨1, 1, 0, 0, 1, 0⟩ (0, 0, none) = (1, 1, none) ∧
    specAffineMap ⟨1, 1, 0, 0, 1, 0⟩ (0, 0) = (1, 0) := by
  constructor <;> norm_num [mapProjectCoord, specAffineMap, Prod.ext_iff]

/-- C3: `pixel_coordinates` is not the inverse of the spec affine map on
every invertible geotransform: `g = (0,1,1,0,0,1)` has determinant 1,
yet for the map vertex `(1,1)` the value `pixel_coordinates` returns is
not sent back to `(1,1)` by the forward map. -/
theorem C3_counterexample :
    gtDet ⟨0, 1, 1, 0, 0, 1⟩ ≠ 0 ∧
    specAffineMap ⟨0, 1, 1, 0, 0, 1⟩ (pixelXY ⟨0, 1, 1, 0, 0, 1⟩ (1, 1)) ≠ (1, 1) := by
  constructor <;>
    norm_num [gtDet, specAffineMap, pixelXY, pixelProjectCoord, Prod.ext_iff]

/-- C3 (amended): for geotransforms with `g[2] = g[4] = 0` and
`g[1] ≠ 0`, `g[5] ≠ 0` (on which the affine map is invertible),
`pixel_coordinates` (snap=False) computes the inverse of the spec affine
map: its output is sent to the input by the forward map, and it is the
unique such point. -/
theorem C3_inverse (g : GeoTransform) (h2 : g.g2 = 0) (h4 : g.g4 = 0)
    (h1 : g.g1 ≠ 0) (h5 : g.g5 ≠ 0) (p : ℚ × ℚ) :
    specAffineMap g (pixelXY g p) = p ∧
    ∀ q : ℚ × ℚ, specAffineMap g q = p → q = pixelXY g p := by
  constructor
  · simp only [specAffineMap, pixelXY, pixelProjectCoord, h2, h4, if_false,
      Bool.false_eq_true]
    refine Prod.ext ?_ ?_
    · show g.g0 + g.g1 * ((p.1 - g.g0) / g.g1) + 0 * ((p.2 - g.g3) / g.g5) = p.1
      field_simp
    · show g.g3 + 0 * ((p.1 - g.g0) / g.g1) + g.g5 * ((p.2 - g.g3) / g.g5) = p.2
      field_simp
  · intro q hq
    simp only [specAffineMap, h2, h4, Prod.ext_iff] at hq
    obtain ⟨hx, hy⟩ := hq
    have hx1 : q.1 = (p.1 - g.g0) / g.g1 := by
      field_simp
      linarith
    have hy1 : q.2 = (p.2 - g.g3) / g.g5 := by
      field_simp
      linarith
    simp only [pixelXY, pixelProjectCoord, h2, h4, if_false, Bool.false_eq_true]
    exact Prod.ext hx1 hy1

/-- Witness for C3_inverse at a concrete geotransform and map vertex. -/
theorem C3_inverse_witness :
    (⟨10, 2, 0, 20, 0, -3⟩ : GeoTransform).g2 = 0 ∧
    (⟨10, 2, 0, 20, 0, -3⟩ : GeoTransform).g4 = 0 ∧
    (⟨10, 2, 0, 20, 0, -3⟩ : GeoTransform).g1 ≠ 0 ∧
    (⟨10, 2, 0, 20, 0, -3⟩ : GeoTransform).g5 ≠ 0 ∧
    (specAffineMap ⟨10, 2, 0, 20, 0, -3⟩ (pixelXY ⟨10, 2, 0, 20, 0, -3⟩ (14, 11)) = (14, 11) ∧
     ∀ q : ℚ × ℚ, specAffineMap ⟨10, 2, 0, 20, 0, -3⟩ q = (14, 11) →
       q = pixelXY ⟨10, 2, 0, 20, 0, -3⟩ (14, 11)) :=
  ⟨rfl, rfl, by norm_num, by norm_num,
    C3_inverse ⟨10, 2, 0, 20, 0, -3⟩ rfl rfl (by norm_num) (by norm_num) (14, 11)⟩

/-- C4: masking is not applied for every array element type: on an
integer array holding the declared no-data value 0, `get_array` (with
`nodata=None`) returns the array unmodified — the no-data element
survives unmasked (the NaN assignment raised `ValueError`, which the
source catches). -/
theorem C4_counterexample :
    get_array Dtype.intType [Val.num 0] (some (NoData.num 0)) none
      = GetArrayResult.plain [Val.num 0] ∧
    pyEqNum (Val.num 0) 0 = true := by
  constructor
  · rfl
  · simp [pyEqNum]

/-- C4 (amended): for a band with declared numeric no-data value `q` and
`nodata=None`, `get_array` on a floating-point array replaces every
element equal to `q` by NaN, and no element of the result still equals
`q`; on an integer array the masking assignment fails with `ValueError`
and the array is returned unmodified. -/
theorem C4_masking (arr : List Val) (q : ℚ) :
    get_array Dtype.float arr (some (NoData.num q)) none
      = GetArrayResult.plain (maskNodata arr q) ∧
    ((maskNodata arr q).all fun v => !(pyEqNum v q)) = true ∧
    get_array Dtype.intType arr (some (NoData.num q)) none
      = GetArrayResult.plain arr := by
  refine ⟨rfl, ?_, rfl⟩
  simp only [List.all_eq_true, maskNodata, List.mem_map]
  rintro v ⟨w, _, rfl⟩
  by_cases h : pyEqNum w q = true
  · rw [if_pos h]
    rfl
  · rw [if_neg h]
    simp only [Bool.not_eq_true] at h
    simp [h]

/-- C10: `get_array` with effective no-data `'nan'` — passed explicitly
or declared on the band — returns a masked array whose mask is exactly
`isnan` of the raster; every other effective no-data value yields a
plain array. -/
theorem C10_nan_masked (dtype : Dtype) (arr : List Val)
    (bandNodata arg : Option NoData) :
    get_array dtype arr bandNodata (some NoData.nanStr)
      = GetArrayResult.masked arr (arr.map isNanV) ∧
    get_array dtype arr (some NoData.nanStr) none
      = GetArrayResult.masked arr (arr.map isNanV) ∧
    (effectiveNodata bandNodata arg ≠ some NoData.nanStr →
      ∃ a, get_array dtype arr bandNodata arg = GetArrayResult.plain a) := by
  refine ⟨rfl, rfl, ?_⟩
  intro h
  cases he : effectiveNodata bandNodata arg with
  | none => exact ⟨arr, by simp [get_array, he]⟩
  | some nd =>
    cases nd with
    | nanStr => exact absurd he h
    | num q =>
      cases dtype
      · exact ⟨maskNodata arr q, by simp [get_array, he]⟩
      · exact ⟨arr, by simp [get_array, he]⟩

/-- Witness for C10_nan_masked: a band with numeric no-data 7 takes the
plain-array path. -/
theorem C10_nan_masked_witness :
    effectiveNodata (some (NoData.num 7)) none ≠ some NoData.nanStr ∧
    (∃ a, get_array Dtype.float [Val.nan, Val.num 3] (some (NoData.num 7)) none
        = GetArrayResult.plain a) :=
  ⟨by simp [effectiveNodata],
    (C10_nan_masked Dtype.float [Val.nan, Val.num 3] (some (NoData.num 7))
      none).2.2 (by simp [effectiveNodata])⟩

/-- C5: `Dataset.__init__` completes with `projected = False` when the
projection block raises `AttributeError`; with the metadata present it
completes with `projected = True` and `wkt`, `crs`, `gcs` populated; an
exception of any other class raised in that block propagates out of the
constructor uncaught. -/
theorem C5_projection (h : GdalHandle) :
    (∀ w c gc, h.projResult = Except.ok (w, c, gc) →
      Dataset.init h = Except.ok
        ⟨some h, (h.RasterYSize, h.RasterXSize), some w, some c, some gc, true⟩) ∧
    (h.projResult = Except.error PyExc.attributeError →
      Dataset.init h = Except.ok
        ⟨some h, (h.RasterYSize, h.RasterXSize), none, none, none, false⟩) ∧
    (∀ e, e ≠ PyExc.attributeError → h.projResult = Except.error e →
      Dataset.init h = Except.error e) := by
  refine ⟨?_, ?_, ?_⟩
  · intro w c gc hp
    simp [Dataset.init, hp]
  · intro hp
    simp [Dataset.init, hp]
  · intro e he hp
    cases e with
    | attributeError => exact absurd rfl he
    | nameError => simp [Dataset.init, hp]
    | otherExc n => simp [Dataset.init, hp]

/-- Witness for C5_projection: a handle whose projection block raises
`AttributeError` yields a dataset with `projected = False`. -/
theorem C5_projection_witness :
    (⟨10, 20, 3, ⟨0, 1, 0, 0, 0, 1⟩, fun _ => ⟨none, Dtype.float, []⟩,
        Except.error PyExc.attributeError⟩ : GdalHandle).projResult
      = Except.error PyExc.attributeError ∧
    Dataset.init ⟨10, 20, 3, ⟨0, 1, 0, 0, 0, 1⟩, fun _ => ⟨none, Dtype.float, []⟩,
        Except.error PyExc.attributeError⟩
      = Except.ok ⟨some ⟨10, 20, 3, ⟨0, 1, 0, 0, 0, 1⟩,
          fun _ => ⟨none, Dtype.float, []⟩, Except.error PyExc.attributeError⟩,
          (10, 20), none, none, none, false⟩ :=
  ⟨rfl, (C5_projection _).2.1 rfl⟩

/-- C6: every band handle obtained through `Dataset.get_band` (i.e.
constructed by `Band.__init__` from the dataset) has `shape` equal to
the dataset's declared `(RasterYSize, RasterXSize)`, for every band
index. -/
theorem C6_band_shape (h : GdalHandle) (d : Dataset) (index : Nat) (b : Band)
    (hd : Dataset.init h = Except.ok d)
    (hb : Dataset.get_band d index = Except.ok b) :
    b.shape = (h.RasterYSize, h.RasterXSize) := by
  have hshape : d.shape = (h.RasterYSize, h.RasterXSize) := by
    cases hp : h.projResult with
    | ok t =>
      obtain ⟨w, c, gc⟩ := t
      simp only [Dataset.init, hp, Except.ok.injEq] at hd
      subst hd
      rfl
    | error e =>
      cases e with
      | attributeError =>
        simp only [Dataset.init, hp, Except.ok.injEq] at hd
        subst hd
        rfl
      | nameError => simp [Dataset.init, hp] at hd
      | otherExc n => simp [Dataset.init, hp] at hd
  rw [← hshape]
  unfold Dataset.get_band Band.init at hb
  cases hg : d.gdal with
  | none =>
    rw [hg] at hb
    exact absurd hb (by simp)
  | some hh =>
    rw [hg] at hb
    simp only [Except.ok.injEq] at hb
    subst hb
    rfl

/-- Witness for C6_band_shape at a concrete handle and band index. -/
theorem C6_band_shape_witness :
    Dataset.init ⟨7, 9, 2, ⟨0, 1, 0, 0, 0, 1⟩,
        fun _ => ⟨some (NoData.num 5), Dtype.float, []⟩, Except.ok (1, 2, 3)⟩
      = Except.ok ⟨some ⟨7, 9, 2, ⟨0, 1, 0, 0, 0, 1⟩,
          fun _ => ⟨some (NoData.num 5), Dtype.float, []⟩, Except.ok (1, 2, 3)⟩,
          (7, 9), some 1, some 2, some 3, true⟩ ∧
    Dataset.get_band ⟨some ⟨7, 9, 2, ⟨0, 1, 0, 0, 0, 1⟩,
          fun _ => ⟨some (NoData.num 5), Dtype.float, []⟩, Except.ok (1, 2, 3)⟩,
          (7, 9), some 1, some 2, some 3, true⟩ 0
      = Except.ok ⟨0, ⟨some (NoData.num 5), Dtype.float, []⟩, (7, 9),
          some (NoData.num 5)⟩ ∧
    (⟨0, ⟨some (NoData.num 5), Dtype.float, []⟩, (7, 9),
        some (NoData.num 5)⟩ : Band).shape = (7, 9) :=
  ⟨rfl, rfl,
    C6_band_shape
      ⟨7, 9, 2, ⟨0, 1, 0, 0, 0, 1⟩,
        fun _ => ⟨some (NoData.num 5), Dtype.float, []⟩, Except.ok (1, 2, 3)⟩
      ⟨some ⟨7, 9, 2, ⟨0, 1, 0, 0, 0, 1⟩,
          fun _ => ⟨some (NoData.num 5), Dtype.float, []⟩, Except.ok (1, 2, 3)⟩,
        (7, 9), some 1, some 2, some 3, true⟩
      0
      ⟨0, ⟨some (NoData.num 5), Dtype.float, []⟩, (7, 9), some (NoData.num 5)⟩
      rfl rfl⟩

/-- C7: `Dataset.close` sets the library handle to `None` and leaves
`shape`, `wkt`, `crs`, `gcs` and `projected` unchanged; `open.__exit__`
calls `close` on the wrapped dataset whether or not the body raised. -/
theorem C7_close (d : Dataset) (exc : Option PyExc) :
    (Dataset.close d).gdal = none ∧
    (Dataset.close d).shape = d.shape ∧
    (Dataset.close d).wkt = d.wkt ∧
    (Dataset.close d).crs = d.crs ∧
    (Dataset.close d).gcs = d.gcs ∧
    (Dataset.close d).projected = d.projected ∧
    openExit d exc = Dataset.close d :=
  ⟨rfl, rfl, rfl, rfl, rfl, rfl, rfl⟩

/-- C8: `Band.get_pixel` raises `NameError` on every band and every
input pair, its body reading the unbound names `px` and `py`. -/
theorem C8_get_pixel_name_error (b : Band) (x y : ℚ) :
    Band.get_pixel b x y = Except.error PyExc.nameError :=
  rfl

/-- C9: `Band.extract` produces the same result for every strategy
argument as for `strategies.nearest`, because it calls `extract_pixels`
without forwarding the argument; in particular a geometry whose
pixel-space projection has zero area is always evaluated with the
default nearest-pixel strategy. -/
theorem C9_strategy_ignored (nearest : Strategy) (ea : Geom → Geom)
    (b : BandState) (geometry : Geom) (s : Strategy) :
    extract nearest ea b geometry s = extract nearest ea b geometry nearest ∧
    ((pixel_coordinates b.geomatrix geometry false).area = 0 →
      extract nearest ea b geometry s
        = map_coordinates b.geomatrix
            (nearest b.getArrayDefault
              (pixel_coordinates b.geomatrix geometry false))) := by
  refine ⟨rfl, ?_⟩
  intro h0
  unfold extract extract_pixels
  rw [if_pos h0]

/-- Witness for C9_strategy_ignored: a point geometry (zero area) is
evaluated with the default strategy even when a different strategy is
passed. -/
theorem C9_strategy_ignored_witness :
    (pixel_coordinates (⟨0, 1, 0, 0, 0, 1⟩ : GeoTransform)
        ⟨GeomKind.point, [(3, 4, none)]⟩ false).area = 0 ∧
    extract (fun _ g => g) id ⟨⟨0, 1, 0, 0, 0, 1⟩, Dtype.float, [], none⟩
        ⟨GeomKind.point, [(3, 4, none)]⟩ (fun _ _ => ⟨GeomKind.point, []⟩)
      = map_coordinates ⟨0, 1, 0, 0, 0, 1⟩
          (pixel_coordinates ⟨0, 1, 0, 0, 0, 1⟩
            ⟨GeomKind.point, [(3, 4, none)]⟩ false) :=
  ⟨rfl, (C9_strategy_ignored (fun _ g => g) id
      ⟨⟨0, 1, 0, 0, 0, 1⟩, Dtype.float, [], none⟩
      ⟨GeomKind.point, [(3, 4, none)]⟩ (fun _ _ => ⟨GeomKind.point, []⟩)).2 rfl⟩

end Imagery
